import Mathlib

/-!
Verification of the CAR-LightRAG-MCP knowledge-graph core against its
specification.  The development shallowly embeds the storage state (the three
SQLite tables created in db_handler.py), the utility layer (kg_utils.py) and
the entity / relation / observation / search CRUD operations
(ops_entity_crud.py, ops_relation_crud.py, ops_observation_crud.py,
search_ops.py) as pure Lean functions over an explicit state, and proves the
claimed properties about them.

Modelling conventions:
- SQLite rows are records; a table is the list of its rows in insertion order.
- datetime values are abstract ticks (Nat) supplied by the caller in place of
  datetime.now(); uuid4 ids are supplied as explicit fresh-id arguments.
- property bags (Python dict[str, Any] serialized as JSON) are association
  lists over the fragment of JSON values that the graph operations construct.
- floats (confidence scores, similarity tiers, backoff delays) are modelled
  as rationals; the literals 0.1, 0.4, 0.6, 0.8 appear as mkRat _ _.
- raised exceptions are Except errors; an operation returns its result, the
  post state, and the number of times it invoked the execute_with_retry
  storage executor (the instrumentation the spec's cache-hit property asks
  for).
- the external cache (redis), the JSON decoder applied to cached strings and
  the md5 hexdigest are injected as function parameters: the operations only
  ever call them, never inspect them.
-/

namespace CarKG

/-- Fragment of JSON property values constructed by the modelled operations:
strings, numbers, and lists of strings (the synthetic "observations"
property). -/
inductive PVal where
  | str : String → PVal
  | num : ℚ → PVal
  | strList : List String → PVal
deriving Repr, DecidableEq

/-- A row of the entities table (db_handler.py CREATE_ENTITIES_TABLE). -/
structure EntityRow where
  id : String
  name : String
  entity_type : String
  embedding : Option (List ℚ)
  created_at : Nat
  updated_at : Nat
  properties : List (String × PVal)
deriving Repr, DecidableEq

/-- A row of the observations table (db_handler.py CREATE_OBSERVATIONS_TABLE);
entity_id is a foreign key into entities with ON DELETE CASCADE. -/
structure ObservationRow where
  id : String
  entity_id : String
  observation : String
  embedding : Option (List ℚ)
  created_at : Nat
  properties : List (String × PVal)
deriving Repr, DecidableEq

/-- A row of the relations table (db_handler.py CREATE_RELATIONS_TABLE); both
endpoint columns are foreign keys into entities with ON DELETE CASCADE. -/
structure RelationRow where
  id : String
  from_entity_id : String
  to_entity_id : String
  relation_type : String
  confidence : ℚ
  created_at : Nat
  properties : List (String × PVal)
deriving Repr, DecidableEq

/-- The storage state: the three tables of the knowledge-graph database. -/
structure KGState where
  entities : List EntityRow
  observations : List ObservationRow
  relations : List RelationRow
deriving Repr, DecidableEq

/-- The empty database, as produced by db_handler.init_database. -/
def emptyState : KGState := ⟨[], [], []⟩

/-- Errors raised by the modelled operations (core/exceptions.py):
ValueError for caller errors, EntityNotFoundError for references to missing
entities. -/
inductive KGErr where
  | valueError : String → KGErr
  | entityNotFound : String → KGErr
deriving Repr, DecidableEq

/-- Outcome of one operation: the returned value or raised error, the storage
state after the call, and how many times the operation invoked the
execute_with_retry storage executor. -/
structure OpOut (α : Type) where
  result : Except KGErr α
  state : KGState
  calls : Nat
deriving Repr

/-- True when the result is a raised ValueError (of any message). -/
def isValueError {α : Type} : Except KGErr α → Bool
  | .error (.valueError _) => true
  | _ => false

/-! ## kg_utils.py: cache keys -/

/-- Python sorted(kwargs.items()): keyword arguments sorted by key, stably
(dict keys are unique, so sorting by key determines the order). -/
def sortedKwargs (kwargs : List (String × String)) : List (String × String) :=
  kwargs.insertionSort (fun a b => a.1 ≤ b.1)

/-- get_cache_key's canonical string (kg_utils.py lines 39-46): the operation
name, the stringified positional args and the sorted "k=v" keyword pairs,
joined with ":".  Positional arguments arrive already stringified (str(arg)).  -/
def canonicalKeyString (operation : String) (args : List String)
    (kwargs : List (String × String)) : String :=
  String.intercalate ":"
    (operation :: (args ++ (sortedKwargs kwargs).map (fun kv => kv.1 ++ "=" ++ kv.2)))

/-- get_cache_key (kg_utils.py lines 26-48).  The md5 hexdigest is injected
as the parameter hash; the code computes
f"kg:\x7boperation\x7d:\x7bhashed\x7d". -/
def get_cache_key (hash : String → String) (operation : String)
    (args : List String) (kwargs : List (String × String)) : String :=
  "kg:" ++ operation ++ ":" ++ hash (canonicalKeyString operation args kwargs)

/-! ## kg_utils.py: execute_with_retry -/

/-- What the underlying cursor.execute does on one invocation: succeed, raise
sqlite3.OperationalError with "database is locked" in the message (the
transient class), or raise any other error.  The Nat payload distinguishes
distinct concrete errors. -/
inductive SqlOutcome where
  | ok : SqlOutcome
  | errLocked : Nat → SqlOutcome
  | errOther : Nat → SqlOutcome
deriving Repr, DecidableEq

/-- Result of execute_with_retry: the statement completed, or an error was
re-raised (locked = the transient class), or the while loop never ran
(max_retries = 0, the Python function falls through and returns None).
Each constructor records how many times cursor.execute ran and the list of
back-off sleep durations (seconds, as rationals) in order. -/
inductive RetryResult where
  | completed : Nat → List ℚ → RetryResult
  | raised : Bool → Nat → Nat → List ℚ → RetryResult
  | noExecution : RetryResult
deriving Repr, DecidableEq

/-- Number of cursor.execute invocations recorded in a RetryResult. -/
def RetryResult.execs : RetryResult → Nat
  | .completed n _ => n
  | .raised _ _ n _ => n
  | .noExecution => 0

/-- Sleep durations recorded in a RetryResult. -/
def RetryResult.sleeps : RetryResult → List ℚ
  | .completed _ s => s
  | .raised _ _ _ s => s
  | .noExecution => []

/-- The while loop of execute_with_retry (kg_utils.py lines 93-107).
remaining = max_retries - retry_count is the loop variant; the current
retry_count is maxRetries - remaining.  On a locked error with
retry_count < max_retries - 1 the code increments retry_count and sleeps
0.1 * 2 ** retry_count seconds, then retries; any other error, or a locked
error on the last permitted attempt, is re-raised. -/
def retryGo (outcome : Nat → SqlOutcome) (maxRetries : Nat) :
    Nat → List ℚ → RetryResult
  | 0, _ => .noExecution
  | remaining + 1, sleeps =>
    let retryCount := maxRetries - (remaining + 1)
    match outcome retryCount with
    | .ok => .completed (retryCount + 1) sleeps
    | .errOther code => .raised false code (retryCount + 1) sleeps
    | .errLocked code =>
      if remaining = 0 then
        .raised true code (retryCount + 1) sleeps
      else
        retryGo outcome maxRetries remaining
          (sleeps ++ [mkRat 1 10 * 2 ^ (retryCount + 1)])

/-- execute_with_retry (kg_utils.py lines 80-107) applied to a statement
whose i-th execution behaves as outcome i. -/
def execute_with_retry (outcome : Nat → SqlOutcome) (maxRetries : Nat := 3) :
    RetryResult :=
  retryGo outcome maxRetries maxRetries []

/-- The back-off schedule: the sleeps taken after the first n failed
attempts are 0.1 * 2 ^ 1, ..., 0.1 * 2 ^ n seconds. -/
def backoffSleeps (n : Nat) : List ℚ :=
  (List.range n).map (fun i => mkRat 1 10 * 2 ^ (i + 1))

/-! ## The injected cache client

The redis client is injected; the operations only call get on it.  A get
that raises inside the code is caught and treated as a miss, so it is
modelled as returning none.  The JSON decoding applied to a cached string
(json.loads followed by model construction) is likewise injected; a decode
that raises is modelled as none and falls through to storage. -/

/-- The cache provider interface as used by the read operations
(kg_models_all.py CacheProvider): a keyed string store. -/
structure CacheClient where
  get : String → Option String

/-! ## ops_entity_crud.py -/

/-- Python str.strip() leaves the empty string, i.e. "not s.strip()":
every character of the string is whitespace. -/
def stripEmpty (s : String) : Bool := s.data.all Char.isWhitespace

/-- Python dict assignment d[k] = v on an association list: replace the
value in place when the key is present, otherwise append the new pair. -/
def dictSet (props : List (String × PVal)) (k : String) (v : PVal) :
    List (String × PVal) :=
  if props.any (fun kv => kv.1 = k) then
    props.map (fun kv => if kv.1 = k then (k, v) else kv)
  else
    props ++ [(k, v)]

/-- create_entity (ops_entity_crud.py lines 26-132), with the generated
uuid4 supplied as freshId and datetime.now() as now.  Empty (stripped) name
or type raises ValueError; an existing row with the same (name, entity_type)
short-circuits to its id after one SELECT; otherwise the new row is inserted
(SELECT + INSERT = two executor calls) and freshId returned. -/
def create_entity (s : KGState) (name entity_type : String)
    (embedding : Option (List ℚ)) (properties : List (String × PVal))
    (freshId : String) (now : Nat) : OpOut String :=
  if stripEmpty name || stripEmpty entity_type then
    ⟨.error (.valueError "Entity name and type cannot be empty"), s, 0⟩
  else
    match s.entities.find? (fun r => r.name = name && r.entity_type = entity_type) with
    | some existing => ⟨.ok existing.id, s, 1⟩
    | none =>
      let row : EntityRow :=
        ⟨freshId, name, entity_type, embedding, now, now, properties⟩
      ⟨.ok freshId, { s with entities := s.entities ++ [row] }, 2⟩

/-- ORDER BY created_at DESC on observations (larger tick first; stable). -/
def sortObsNewestFirst (l : List ObservationRow) : List ObservationRow :=
  l.insertionSort (fun a b => b.created_at ≤ a.created_at)

/-- _add_observations_to_entity (ops_entity_crud.py lines 323-353): fetch the
entity's observations newest-first (one executor call) and store their texts
under the "observations" key of the property bag; updated_at is set to
datetime.now(). -/
def add_observations_to_entity (s : KGState) (e : EntityRow) (now : Nat) :
    EntityRow :=
  let obs := (sortObsNewestFirst (s.observations.filter
    (fun o => o.entity_id = e.id))).map (fun o => o.observation)
  { e with properties := dictSet e.properties "observations" (.strList obs),
           updated_at := now }

/-- The storage path of get_entity (ops_entity_crud.py lines 169-217):
SELECT by id (one executor call); absent rows give None; present rows are
decorated with their observations (a second executor call). -/
def get_entity_db (s : KGState) (entity_id : String) (now : Nat) :
    OpOut (Option EntityRow) :=
  match s.entities.find? (fun r => r.id = entity_id) with
  | none => ⟨.ok none, s, 1⟩
  | some row => ⟨.ok (some (add_observations_to_entity s row now)), s, 2⟩

/-- get_entity (ops_entity_crud.py lines 135-227).  Empty id raises
ValueError; with a cache configured, a cached string under the derived key
that decodes successfully is returned without touching storage; otherwise
the storage path runs. -/
def get_entity (hash : String → String) (cache : Option CacheClient)
    (decode : String → Option EntityRow) (s : KGState) (entity_id : String)
    (now : Nat) : OpOut (Option EntityRow) :=
  if entity_id = "" then
    ⟨.error (.valueError "Entity ID cannot be empty"), s, 0⟩
  else
    let hit : Option EntityRow :=
      match cache with
      | none => none
      | some c =>
        match c.get (get_cache_key hash "get_entity" [entity_id] []) with
        | none => none
        | some cached => decode cached
    match hit with
    | some e => ⟨.ok (some e), s, 0⟩
    | none => get_entity_db s entity_id now

/-- The storage path of get_entity_by_name (ops_entity_crud.py lines
263-311): SELECT by name, fetchone (the first matching row). -/
def get_entity_by_name_db (s : KGState) (name : String) (now : Nat) :
    OpOut (Option EntityRow) :=
  match s.entities.find? (fun r => r.name = name) with
  | none => ⟨.ok none, s, 1⟩
  | some row => ⟨.ok (some (add_observations_to_entity s row now)), s, 2⟩

/-- get_entity_by_name (ops_entity_crud.py lines 229-321), cache layered over
the storage path exactly as in get_entity. -/
def get_entity_by_name (hash : String → String) (cache : Option CacheClient)
    (decode : String → Option EntityRow) (s : KGState) (name : String)
    (now : Nat) : OpOut (Option EntityRow) :=
  if name = "" then
    ⟨.error (.valueError "Entity name cannot be empty"), s, 0⟩
  else
    let hit : Option EntityRow :=
      match cache with
      | none => none
      | some c =>
        match c.get (get_cache_key hash "get_entity_by_name" [name] []) with
        | none => none
        | some cached => decode cached
    match hit with
    | some e => ⟨.ok (some e), s, 0⟩
    | none => get_entity_by_name_db s name now

/-- update_entity (ops_entity_crud.py lines 356-444).  Empty id raises
ValueError; a missing id returns false after one SELECT; otherwise the
present optional fields are patched, updated_at is always refreshed, and the
UPDATE makes the second executor call. -/
def update_entity (s : KGState) (entity_id : String) (name : Option String)
    (entity_type : Option String) (embedding : Option (List ℚ))
    (properties : Option (List (String × PVal))) (now : Nat) : OpOut Bool :=
  if entity_id = "" then
    ⟨.error (.valueError "Entity ID cannot be empty"), s, 0⟩
  else
    match s.entities.find? (fun r => r.id = entity_id) with
    | none => ⟨.ok false, s, 1⟩
    | some _ =>
      let patch : EntityRow → EntityRow := fun r =>
        if r.id = entity_id then
          { r with
            name := name.getD r.name,
            entity_type := entity_type.getD r.entity_type,
            embedding := match embedding with
              | some e => some e
              | none => r.embedding,
            properties := properties.getD r.properties,
            updated_at := now }
        else r
      ⟨.ok true, { s with entities := s.entities.map patch }, 2⟩

/-- delete_entity (ops_entity_crud.py lines 447-498).  Empty id raises
ValueError; the initial get_entity costs two executor calls when the entity
exists (one when it does not, returning false); the DELETE on entities is
the third call, and the ON DELETE CASCADE foreign keys of the observations
and relations tables (db_handler.py lines 28-52, with PRAGMA foreign_keys=ON
set in kg_connection.py) remove every observation owned by the entity and
every relation having it as either endpoint. -/
def delete_entity (s : KGState) (entity_id : String) : OpOut Bool :=
  if entity_id = "" then
    ⟨.error (.valueError "Entity ID cannot be empty"), s, 0⟩
  else
    match s.entities.find? (fun r => r.id = entity_id) with
    | none => ⟨.ok false, s, 1⟩
    | some _ =>
      ⟨.ok true,
       { entities := s.entities.filter (fun r => r.id ≠ entity_id),
         observations := s.observations.filter (fun o => o.entity_id ≠ entity_id),
         relations := s.relations.filter
           (fun r => r.from_entity_id ≠ entity_id && r.to_entity_id ≠ entity_id) },
       3⟩

/-! ## ops_relation_crud.py -/

/-- One row of a get_relations result set (the dict built at
ops_relation_crud.py lines 201-222). -/
structure RelOut where
  id : String
  from_entity_id : String
  from_entity_name : String
  to_entity_id : String
  to_entity_name : String
  relation_type : String
  confidence : ℚ
  direction : String
  created_at : Nat
  properties : List (String × PVal)
deriving Repr, DecidableEq

/-- create_relation (ops_relation_crud.py lines 24-139).  Validation happens
before any cursor use: empty ids or type raise ValueError, and a confidence
outside [0.0, 1.0] raises ValueError.  Then both endpoints are looked up
(EntityNotFoundError when missing), the (from, to, type) triple is dedup'd
to the existing id, and otherwise the INSERT plus the two updated_at touches
run (SELECT, SELECT, SELECT, INSERT, UPDATE, UPDATE = six executor calls). -/
def create_relation (s : KGState) (from_entity_id to_entity_id relation_type : String)
    (confidence : ℚ) (properties : List (String × PVal)) (freshId : String)
    (now : Nat) : OpOut String :=
  if from_entity_id = "" || to_entity_id = "" || relation_type = "" then
    ⟨.error (.valueError
      "Source entity ID, target entity ID, and relation type cannot be empty"), s, 0⟩
  else if confidence < 0 ∨ 1 < confidence then
    ⟨.error (.valueError "Confidence score must be between 0.0 and 1.0"), s, 0⟩
  else
    match s.entities.find? (fun r => r.id = from_entity_id) with
    | none => ⟨.error (.entityNotFound
        ("Source entity with ID '" ++ from_entity_id ++ "' not found")), s, 1⟩
    | some _ =>
      match s.entities.find? (fun r => r.id = to_entity_id) with
      | none => ⟨.error (.entityNotFound
          ("Target entity with ID '" ++ to_entity_id ++ "' not found")), s, 2⟩
      | some _ =>
        match s.relations.find? (fun r =>
            r.from_entity_id = from_entity_id && r.to_entity_id = to_entity_id
              && r.relation_type = relation_type) with
        | some existing => ⟨.ok existing.id, s, 3⟩
        | none =>
          let row : RelationRow :=
            ⟨freshId, from_entity_id, to_entity_id, relation_type, confidence,
             now, properties⟩
          let touch : EntityRow → EntityRow := fun e =>
            if e.id = from_entity_id || e.id = to_entity_id then
              { e with updated_at := now }
            else e
          ⟨.ok freshId,
           { s with relations := s.relations ++ [row],
                    entities := s.entities.map touch }, 6⟩

/-- The outgoing half of get_relations (ops_relation_crud.py lines 192-206):
relations from the entity, joined to the target entity's name (an inner
join, so rows whose target is missing are dropped), optionally filtered by
type. -/
def outgoingRows (s : KGState) (entity_id entity_name : String)
    (relation_type : Option String) : List RelOut :=
  (s.relations.filter (fun r =>
      r.from_entity_id = entity_id &&
        (match relation_type with
         | some t => r.relation_type = t
         | none => true))).filterMap (fun r =>
    match s.entities.find? (fun e => e.id = r.to_entity_id) with
    | none => none
    | some target => some
        ⟨r.id, r.from_entity_id, entity_name, r.to_entity_id, target.name,
         r.relation_type, r.confidence, "outgoing", r.created_at, r.properties⟩)

/-- The incoming half of get_relations (ops_relation_crud.py lines 208-222). -/
def incomingRows (s : KGState) (entity_id entity_name : String)
    (relation_type : Option String) : List RelOut :=
  (s.relations.filter (fun r =>
      r.to_entity_id = entity_id &&
        (match relation_type with
         | some t => r.relation_type = t
         | none => true))).filterMap (fun r =>
    match s.entities.find? (fun e => e.id = r.from_entity_id) with
    | none => none
    | some source => some
        ⟨r.id, r.from_entity_id, source.name, r.to_entity_id, entity_name,
         r.relation_type, r.confidence, "incoming", r.created_at, r.properties⟩)

/-- The storage path of get_relations (ops_relation_crud.py lines 169-239).
A missing entity raises EntityNotFoundError after the one SELECT; otherwise
the directional queries run (one each for outgoing / incoming). -/
def get_relations_db (s : KGState) (entity_id : String) (direction : String)
    (relation_type : Option String) : OpOut (List RelOut) :=
  match s.entities.find? (fun r => r.id = entity_id) with
  | none => ⟨.error (.entityNotFound
      ("Entity with ID '" ++ entity_id ++ "' not found")), s, 1⟩
  | some e =>
    let outgoing := if direction = "outgoing" || direction = "both" then
      outgoingRows s entity_id e.name relation_type else []
    let incoming := if direction = "incoming" || direction = "both" then
      incomingRows s entity_id e.name relation_type else []
    let queries := (if direction = "outgoing" || direction = "both" then 1 else 0)
      + (if direction = "incoming" || direction = "both" then 1 else 0)
    ⟨.ok (outgoing ++ incoming), s, 1 + queries⟩

/-- Python str(relation_type): None prints as "None", a string prints as
itself, for the positional args of the cache key. -/
def strOfOptType : Option String → String
  | none => "None"
  | some t => t

/-- get_relations (ops_relation_crud.py lines 142-248).  Empty id or invalid
direction raise ValueError before the cache is consulted; a decodable cache
hit under the derived key is returned without any executor call. -/
def get_relations (hash : String → String) (cache : Option CacheClient)
    (decode : String → Option (List RelOut)) (s : KGState) (entity_id : String)
    (direction : String) (relation_type : Option String) : OpOut (List RelOut) :=
  if entity_id = "" then
    ⟨.error (.valueError "Entity ID cannot be empty"), s, 0⟩
  else if ¬ (direction = "outgoing" ∨ direction = "incoming" ∨ direction = "both") then
    ⟨.error (.valueError "Direction must be 'outgoing', 'incoming', or 'both'"), s, 0⟩
  else
    let hit : Option (List RelOut) :=
      match cache with
      | none => none
      | some c =>
        match c.get (get_cache_key hash "get_relations"
            [entity_id, direction, strOfOptType relation_type] []) with
        | none => none
        | some cached => decode cached
    match hit with
    | some rels => ⟨.ok rels, s, 0⟩
    | none => get_relations_db s entity_id direction relation_type

/-- delete_relation (ops_relation_crud.py lines 251-299).  A missing relation
id returns false after the one SELECT; otherwise the DELETE runs and both
endpoints' updated_at are touched (four executor calls in total). -/
def delete_relation (s : KGState) (relation_id : String) (now : Nat) : OpOut Bool :=
  if relation_id = "" then
    ⟨.error (.valueError "Relation ID cannot be empty"), s, 0⟩
  else
    match s.relations.find? (fun r => r.id = relation_id) with
    | none => ⟨.ok false, s, 1⟩
    | some row =>
      let touch : EntityRow → EntityRow := fun e =>
        if e.id = row.from_entity_id || e.id = row.to_entity_id then
          { e with updated_at := now }
        else e
      ⟨.ok true,
       { s with relations := s.relations.filter (fun r => r.id ≠ relation_id),
                entities := s.entities.map touch }, 4⟩

/-! ## ops_observation_crud.py -/

/-- add_observation (ops_observation_crud.py lines 27-111).  Empty id or
text raise ValueError; a missing parent entity raises EntityNotFoundError
after one SELECT; otherwise the INSERT runs and the parent's updated_at is
touched (three executor calls). -/
def add_observation (s : KGState) (entity_id observation : String)
    (embedding : Option (List ℚ)) (properties : List (String × PVal))
    (freshId : String) (now : Nat) : OpOut String :=
  if entity_id = "" || observation = "" then
    ⟨.error (.valueError "Entity ID and observation cannot be empty"), s, 0⟩
  else
    match s.entities.find? (fun r => r.id = entity_id) with
    | none => ⟨.error (.entityNotFound
        ("Entity with ID '" ++ entity_id ++ "' not found")), s, 1⟩
    | some _ =>
      let row : ObservationRow :=
        ⟨freshId, entity_id, observation, embedding, now, properties⟩
      let touch : EntityRow → EntityRow := fun e =>
        if e.id = entity_id then { e with updated_at := now } else e
      ⟨.ok freshId,
       { s with observations := s.observations ++ [row],
                entities := s.entities.map touch }, 3⟩

/-- The storage path of get_observations (ops_observation_crud.py lines
140-183): entity existence check (EntityNotFoundError when absent), then the
entity's observations newest-first, truncated to limit. -/
def get_observations_db (s : KGState) (entity_id : String) (limit : Nat) :
    OpOut (List ObservationRow) :=
  match s.entities.find? (fun r => r.id = entity_id) with
  | none => ⟨.error (.entityNotFound
      ("Entity with ID '" ++ entity_id ++ "' not found")), s, 1⟩
  | some _ =>
    let obs := (sortObsNewestFirst (s.observations.filter
      (fun o => o.entity_id = entity_id))).take limit
    ⟨.ok obs, s, 2⟩

/-- get_observations (ops_observation_crud.py lines 114-192).  Empty id
raises ValueError before the cache; a decodable cache hit under the derived
key (operation, entity id, stringified limit) returns without storage. -/
def get_observations (hash : String → String) (cache : Option CacheClient)
    (decode : String → Option (List ObservationRow)) (s : KGState)
    (entity_id : String) (limit : Nat) : OpOut (List ObservationRow) :=
  if entity_id = "" then
    ⟨.error (.valueError "Entity ID cannot be empty"), s, 0⟩
  else
    let hit : Option (List ObservationRow) :=
      match cache with
      | none => none
      | some c =>
        match c.get (get_cache_key hash "get_observations"
            [entity_id, toString limit] []) with
        | none => none
        | some cached => decode cached
    match hit with
    | some obs => ⟨.ok obs, s, 0⟩
    | none => get_observations_db s entity_id limit

/-- delete_observation (ops_observation_crud.py lines 195-243).  A missing
observation id returns false after one SELECT; otherwise the DELETE runs and
the parent entity's updated_at is touched (three executor calls). -/
def delete_observation (s : KGState) (observation_id : String) (now : Nat) :
    OpOut Bool :=
  if observation_id = "" then
    ⟨.error (.valueError "Observation ID cannot be empty"), s, 0⟩
  else
    match s.observations.find? (fun o => o.id = observation_id) with
    | none => ⟨.ok false, s, 1⟩
    | some row =>
      let touch : EntityRow → EntityRow := fun e =>
        if e.id = row.entity_id then { e with updated_at := now } else e
      let remaining := s.observations.filter (fun o => o.id ≠ observation_id)
      ⟨.ok true,
       { s with observations := remaining,
                entities := s.entities.map touch }, 3⟩

/-! ## search_ops.py

SQLite LIKE comparisons are case-insensitive on ASCII; the match patterns
search_ops.py uses are the raw query (exact), query% (starts-with) and
%query% (contains).  They are modelled for queries without the LIKE
wildcards % and _, as character-list comparisons on lower-cased data — the
same comparisons the Python similarity scorer performs with lower(). -/

/-- Lower-cased characters of a string (Python str.lower / SQLite LIKE
folding, ASCII). -/
def lowerChars (s : String) : List Char := s.data.map Char.toLower

/-- name LIKE query (no wildcards): case-insensitive equality. -/
def likeExact (name query : String) : Bool :=
  lowerChars name = lowerChars query

/-- name LIKE query% : case-insensitive starts-with. -/
def likeStarts (name query : String) : Bool :=
  (lowerChars query).isPrefixOf (lowerChars name)

/-- name LIKE %query% : case-insensitive containment. -/
def likeContains (name query : String) : Bool :=
  decide (lowerChars query <:+: lowerChars name)

/-- The CASE tier of the candidate query's ORDER BY (search_ops.py lines
91-97): 1 exact, 2 starts-with, 3 contains, 4 otherwise. -/
def likeTier (name query : String) : Nat :=
  if likeExact name query then 1
  else if likeStarts name query then 2
  else if likeContains name query then 3
  else 4

/-- The text-based similarity tiers (search_ops.py lines 180-190):
1.0 exact, 0.8 starts-with, 0.6 contains, 0.4 otherwise, on lower-cased
name and query. -/
def textSimilarity (name query : String) : ℚ :=
  if likeExact name query then 1
  else if likeStarts name query then mkRat 4 5
  else if likeContains name query then mkRat 3 5
  else mkRat 2 5

/-- The candidate query of search_entities (search_ops.py lines 85-110):
entities whose name matches the query exactly, as a prefix or as a
substring (one LIKE disjunction), optionally filtered by type, ordered by
match tier, limited to limit rows. -/
def searchCandidates (s : KGState) (query : String)
    (entity_type : Option String) (limit : Nat) : List EntityRow :=
  ((s.entities.filter (fun e =>
      (likeExact e.name query || likeStarts e.name query
        || likeContains e.name query) &&
      (match entity_type with
       | some t => e.entity_type = t
       | none => true))).insertionSort
    (fun a b => likeTier a.name query ≤ likeTier b.name query)).take limit

/-- One search result (the dict of search_ops.py lines 197-199 and 213): the
entity's fields without its embedding, the similarity score, and the
observation count added after truncation. -/
structure SearchResult where
  id : String
  name : String
  entity_type : String
  created_at : Nat
  updated_at : Nat
  properties : List (String × PVal)
  similarity : ℚ
  observation_count : Nat
deriving Repr, DecidableEq

/-- The storage path of search_entities (search_ops.py lines 66-241) when no
embedding function is configured (query_embedding is None, so the semantic
candidate pool and the dot-product branch are dead): score each candidate by
the text tiers, drop scores strictly below min_similarity, sort by
similarity descending (Python's stable sort with reverse=True), truncate to
limit, and annotate each survivor with its observation count (one COUNT
query per result row, after the one candidate query). -/
def search_entities_db (s : KGState) (query : String)
    (entity_type : Option String) (limit : Nat) (min_similarity : ℚ) :
    OpOut (List SearchResult) :=
  let scored := (searchCandidates s query entity_type limit).map
    (fun e => (e, textSimilarity e.name query))
  let kept := scored.filter (fun p => ¬ p.2 < min_similarity)
  let sorted := (kept.insertionSort (fun a b => b.2 ≤ a.2)).take limit
  let results := sorted.map (fun p =>
    ({ id := p.1.id, name := p.1.name, entity_type := p.1.entity_type,
       created_at := p.1.created_at, updated_at := p.1.updated_at,
       properties := p.1.properties, similarity := p.2,
       observation_count := (s.observations.filter
         (fun o => o.entity_id = p.1.id)).length } : SearchResult))
  ⟨.ok results, s, 1 + results.length⟩

/-- search_entities (search_ops.py lines 22-251) with no embedding function.
An empty query raises ValueError before the cache; a decodable cache hit
under the derived key (query, stringified type filter, limit and
min_similarity) returns without storage. -/
def search_entities (hash : String → String) (cache : Option CacheClient)
    (decode : String → Option (List SearchResult)) (s : KGState)
    (query : String) (entity_type : Option String) (limit : Nat)
    (min_similarity : ℚ) : OpOut (List SearchResult) :=
  if query = "" then
    ⟨.error (.valueError "Search query cannot be empty"), s, 0⟩
  else
    let hit : Option (List SearchResult) :=
      match cache with
      | none => none
      | some c =>
        match c.get (get_cache_key hash "search_entities"
            [query, strOfOptType entity_type, toString limit,
             toString min_similarity] []) with
        | none => none
        | some cached => decode cached
    match hit with
    | some results => ⟨.ok results, s, 0⟩
    | none => search_entities_db s query entity_type limit min_similarity

/-! ## Claims about entity creation -/

/-- C1: for every graph state, creating an entity whose (name, type) pair
equals that of an already-stored entity returns the existing entity's id
without raising an error, and creating an entity with the same name but a
different type creates a new entity and returns a distinct id (the freshly
generated uuid, assumed distinct from every stored id). -/
theorem claim_C1 (s : KGState) (name ty ty2 : String)
    (emb emb2 : Option (List ℚ)) (props props2 : List (String × PVal))
    (fid fid2 : String) (now now2 : Nat) (r : EntityRow)
    (hname : stripEmpty name = false) (hty : stripEmpty ty = false)
    (hty2 : stripEmpty ty2 = false)
    (hfound : s.entities.find? (fun e => e.name = name && e.entity_type = ty)
      = some r)
    (hnone : s.entities.find? (fun e => e.name = name && e.entity_type = ty2)
      = none)
    (hfresh : ∀ e ∈ s.entities, e.id ≠ fid2) :
    create_entity s name ty emb props fid now = ⟨.ok r.id, s, 1⟩
    ∧ (create_entity s name ty2 emb2 props2 fid2 now2).result = .ok fid2
    ∧ fid2 ≠ r.id
    ∧ (create_entity s name ty2 emb2 props2 fid2 now2).state.entities
        = s.entities ++ [⟨fid2, name, ty2, emb2, now2, now2, props2⟩] := by
  refine ⟨?_, ?_, ?_, ?_⟩
  · simp [create_entity, hname, hty, hfound]
  · simp [create_entity, hname, hty2, hnone]
  · exact fun h => hfresh r (List.mem_of_find?_eq_some hfound) h.symm
  · simp [create_entity, hname, hty2, hnone]

/-- Witness for C1 on a one-entity state: a duplicate ("Foo", "function")
returns the stored id "A", while ("Foo", "class") creates id "B" ≠ "A". -/
theorem claim_C1_witness :
    create_entity ⟨[⟨"A", "Foo", "function", none, 0, 0, []⟩], [], []⟩
        "Foo" "function" none [] "B" 1 = ⟨.ok "A",
          ⟨[⟨"A", "Foo", "function", none, 0, 0, []⟩], [], []⟩, 1⟩
    ∧ (create_entity ⟨[⟨"A", "Foo", "function", none, 0, 0, []⟩], [], []⟩
        "Foo" "class" none [] "B" 1).result = .ok "B"
    ∧ "B" ≠ "A"
    ∧ (create_entity ⟨[⟨"A", "Foo", "function", none, 0, 0, []⟩], [], []⟩
        "Foo" "class" none [] "B" 1).state.entities
        = [⟨"A", "Foo", "function", none, 0, 0, []⟩]
          ++ [⟨"B", "Foo", "class", none, 1, 1, []⟩] := by
  have h := claim_C1 ⟨[⟨"A", "Foo", "function", none, 0, 0, []⟩], [], []⟩
    "Foo" "function" "class" none none [] [] "ignored" "B" 1 1
    ⟨"A", "Foo", "function", none, 0, 0, []⟩
    (by decide) (by decide) (by decide) (by decide) (by decide)
    (by decide)
  exact h

/-- C10: calling create_entity with the (name, type) of a stored entity
performs no storage mutation at all — the state (hence the stored row's
embedding, properties and timestamps) is exactly the input state, the result
is the stored id, and only the one dedup SELECT ran — even when the
duplicate call supplies a different embedding or different properties. -/
theorem claim_C10 (s : KGState) (name ty : String) (emb2 : Option (List ℚ))
    (props2 : List (String × PVal)) (fid : String) (now : Nat) (r : EntityRow)
    (hname : stripEmpty name = false) (hty : stripEmpty ty = false)
    (hfound : s.entities.find? (fun e => e.name = name && e.entity_type = ty)
      = some r) :
    create_entity s name ty emb2 props2 fid now = ⟨.ok r.id, s, 1⟩ := by
  simp [create_entity, hname, hty, hfound]

/-- Witness for C10: re-creating ("Foo", "function") with a different
embedding and different properties leaves the stored row unchanged. -/
theorem claim_C10_witness :
    create_entity
        ⟨[⟨"A", "Foo", "function", none, 0, 0, [("k", .str "v")]⟩], [], []⟩
        "Foo" "function" (some [1, 2]) [("k", .str "other")] "B" 9
      = ⟨.ok "A",
         ⟨[⟨"A", "Foo", "function", none, 0, 0, [("k", .str "v")]⟩], [], []⟩,
         1⟩ :=
  claim_C10 ⟨[⟨"A", "Foo", "function", none, 0, 0, [("k", .str "v")]⟩], [], []⟩
    "Foo" "function" (some [1, 2]) [("k", .str "other")] "B" 9
    ⟨"A", "Foo", "function", none, 0, 0, [("k", .str "v")]⟩
    (by decide) (by decide) (by decide)

/-! ## Claim about relation validation -/

/-- C3: every create_relation call with confidence strictly below 0.0 or
strictly above 1.0 raises ValueError before any storage access — zero
executor calls — and leaves the stored entities, relations and observations
exactly as they were. -/
theorem claim_C3 (s : KGState) (f t rt : String) (conf : ℚ)
    (props : List (String × PVal)) (fid : String) (now : Nat)
    (hconf : conf < 0 ∨ 1 < conf) :
    isValueError (create_relation s f t rt conf props fid now).result = true
    ∧ (create_relation s f t rt conf props fid now).state = s
    ∧ (create_relation s f t rt conf props fid now).calls = 0 := by
  unfold create_relation
  by_cases hempty : (f = "" || t = "" || rt = "") = true
  · simp [hempty, isValueError]
  · simp only [hempty, Bool.false_eq_true, if_false, if_pos hconf]
    simp [isValueError]

/-- Witness for C3: confidence 2 on an empty graph is rejected with no
storage access. -/
theorem claim_C3_witness :
    isValueError (create_relation emptyState "a" "b" "calls" 2 [] "R" 0).result
      = true
    ∧ (create_relation emptyState "a" "b" "calls" 2 [] "R" 0).state = emptyState
    ∧ (create_relation emptyState "a" "b" "calls" 2 [] "R" 0).calls = 0 :=
  claim_C3 emptyState "a" "b" "calls" 2 [] "R" 0 (Or.inr (by norm_num))

/-! ## Claim about cache-key derivation -/

lemma sortedKwargs_sorted (l : List (String × String)) :
    List.Pairwise (fun a b : String × String => a.1 ≤ b.1) (sortedKwargs l) := by
  haveI : IsTotal (String × String) (fun a b => a.1 ≤ b.1) :=
    ⟨fun a b => le_total a.1 b.1⟩
  haveI : IsTrans (String × String) (fun a b => a.1 ≤ b.1) :=
    ⟨fun _ _ _ hab hbc => le_trans hab hbc⟩
  exact List.sorted_insertionSort _ l

lemma sortedKwargs_perm (l : List (String × String)) :
    (sortedKwargs l).Perm l :=
  List.perm_insertionSort _ l

/-- Sorting by key is insensitive to the order in which a dict with unique
keys yields its items. -/
lemma sortedKwargs_eq_of_perm {l l' : List (String × String)}
    (hperm : l.Perm l') (hnd : (l.map Prod.fst).Nodup) :
    sortedKwargs l = sortedKwargs l' := by
  have hp : (sortedKwargs l).Perm (sortedKwargs l') :=
    ((sortedKwargs_perm l).trans hperm).trans (sortedKwargs_perm l').symm
  have hnd1 : ((sortedKwargs l).map Prod.fst).Nodup :=
    (((sortedKwargs_perm l).map Prod.fst).nodup_iff).mpr hnd
  have hnd2 : ((sortedKwargs l').map Prod.fst).Nodup :=
    ((hp.map Prod.fst).nodup_iff).mp hnd1
  have hlt1 : List.Pairwise (fun a b : String × String => a.1 < b.1)
      (sortedKwargs l) := by
    have hne : List.Pairwise (fun a b : String × String => a.1 ≠ b.1)
        (sortedKwargs l) := (List.pairwise_map).mp hnd1
    exact ((sortedKwargs_sorted l).and hne).imp
      (fun h => lt_of_le_of_ne h.1 h.2)
  have hlt2 : List.Pairwise (fun a b : String × String => a.1 < b.1)
      (sortedKwargs l') := by
    have hne : List.Pairwise (fun a b : String × String => a.1 ≠ b.1)
        (sortedKwargs l') := (List.pairwise_map).mp hnd2
    exact ((sortedKwargs_sorted l').and hne).imp
      (fun h => lt_of_le_of_ne h.1 h.2)
  haveI : IsAntisymm (String × String) (fun a b => a.1 < b.1) :=
    ⟨fun a b hab hba => absurd hba (not_lt_of_lt hab)⟩
  exact List.eq_of_perm_of_sorted hp hlt1 hlt2

/-- C6 counterexample: the derived key is namespaced with "kg:", not
"graph:"; at the concrete operation "get_entity" with one positional
argument (and the hexdigest injected as the identity function) the key is
"kg:get_entity:get_entity:e1" and "graph:" is not a prefix of it. -/
theorem counterexample_C6 :
    get_cache_key (fun h => h) "get_entity" ["e1"] []
      = "kg:get_entity:get_entity:e1"
    ∧ "graph:".data.isPrefixOf
        (get_cache_key (fun h => h) "get_entity" ["e1"] []).data = false := by
  constructor
  · decide
  · decide

/-- C6 amended: the cache-key derivation is deterministic — it is a pure
function of operation, positional args and the kwargs dict, and reordering
the (unique-keyed) kwargs items leaves the key unchanged — and the returned
key is the namespace prefix "kg:" (not "graph:") followed by the operation
name followed by the hash of the canonicalized string of operation name,
positional args, and sorted keyword args. -/
theorem claim_C6 (hash : String → String) (operation : String)
    (args : List String) (kwargs kwargs' : List (String × String)) :
    get_cache_key hash operation args kwargs
      = "kg:" ++ operation ++ ":"
        ++ hash (canonicalKeyString operation args kwargs)
    ∧ (kwargs.Perm kwargs' → (kwargs.map Prod.fst).Nodup →
        get_cache_key hash operation args kwargs
          = get_cache_key hash operation args kwargs') := by
  refine ⟨rfl, fun hperm hnd => ?_⟩
  unfold get_cache_key canonicalKeyString
  rw [sortedKwargs_eq_of_perm hperm hnd]

/-- Witness for C6: concrete keys with the kwargs dict items given in the
two possible orders agree. -/
theorem claim_C6_witness :
    get_cache_key (fun h => h) "search_entities" ["q"]
        [("limit", "10"), ("entity_type", "fn")]
      = "kg:" ++ "search_entities" ++ ":"
        ++ canonicalKeyString "search_entities" ["q"]
            [("limit", "10"), ("entity_type", "fn")]
    ∧ get_cache_key (fun h => h) "search_entities" ["q"]
        [("limit", "10"), ("entity_type", "fn")]
      = get_cache_key (fun h => h) "search_entities" ["q"]
        [("entity_type", "fn"), ("limit", "10")] := by
  have h := claim_C6 (fun h => h) "search_entities" ["q"]
    [("limit", "10"), ("entity_type", "fn")]
    [("entity_type", "fn"), ("limit", "10")]
  exact ⟨h.1, h.2 (List.Perm.swap _ _ _) (by decide)⟩

/-! ## Claim about the retry executor -/

lemma retryGo_execs_le (outcome : Nat → SqlOutcome) (mr : Nat) :
    ∀ remaining sleeps0, remaining ≤ mr →
      (retryGo outcome mr remaining sleeps0).execs ≤ mr := by
  intro remaining
  induction remaining with
  | zero =>
    intro sleeps0 _
    simp [retryGo, RetryResult.execs]
  | succ rem ih =>
    intro sleeps0 hle
    unfold retryGo
    cases houtcome : outcome (mr - (rem + 1)) with
    | ok =>
      simp only [houtcome, RetryResult.execs]
      omega
    | errOther code =>
      simp only [houtcome, RetryResult.execs]
      omega
    | errLocked code =>
      by_cases hrem : rem = 0
      · subst hrem
        simp [houtcome, RetryResult.execs]
        omega
      · simp only [houtcome, hrem, if_false]
        exact ih _ (by omega)

/-- The backoff sleep of 0.1 * 2 ^ e seconds, e the retry count after
incrementing. -/
def backoffAt (e : Nat) : ℚ := mkRat 1 10 * 2 ^ e

lemma retryGo_errOther (outcome : Nat → SqlOutcome) (mr : Nat) :
    ∀ k remaining sleeps0 c, remaining ≤ mr →
      (∀ i, i < k → ∃ code, outcome (mr - remaining + i) = .errLocked code) →
      outcome (mr - remaining + k) = .errOther c →
      mr - remaining + k < mr →
      retryGo outcome mr remaining sleeps0
        = .raised false c (mr - remaining + k + 1)
            (sleeps0 ++ (List.range' (mr - remaining + 1) k).map backoffAt) := by
  intro k
  induction k with
  | zero =>
    intro remaining sleeps0 c hle _ herr hlt
    cases remaining with
    | zero => omega
    | succ rem =>
      rw [Nat.add_zero] at herr
      unfold retryGo
      simp [herr]
  | succ k ih =>
    intro remaining sleeps0 c hle hlocked herr hlt
    cases remaining with
    | zero => omega
    | succ rem =>
      obtain ⟨code0, hout0⟩ := hlocked 0 (by omega)
      rw [Nat.add_zero] at hout0
      have hrem : rem ≠ 0 := by omega
      have ha : mr - rem = mr - (rem + 1) + 1 := by omega
      have hrec := ih rem (sleeps0 ++ [backoffAt (mr - (rem + 1) + 1)]) c
        (by omega)
        (fun i hi => by
          obtain ⟨cc, hcc⟩ := hlocked (i + 1) (by omega)
          exact ⟨cc, by rw [show mr - rem + i = mr - (rem + 1) + (i + 1)
                              by omega]
                        exact hcc⟩)
        (by rw [show mr - rem + k = mr - (rem + 1) + (k + 1) by omega]
            exact herr)
        (by omega)
      unfold retryGo
      simp only [hout0, hrem, if_false]
      rw [show (sleeps0 ++ [mkRat 1 10 * 2 ^ (mr - (rem + 1) + 1)])
            = sleeps0 ++ [backoffAt (mr - (rem + 1) + 1)] from rfl]
      rw [hrec, ha]
      rw [List.range'_succ, List.map_cons, List.append_assoc,
        List.singleton_append]
      rw [show mr - (rem + 1) + 1 + k + 1 = mr - (rem + 1) + (k + 1) + 1
            by omega]

lemma retryGo_allLocked (outcome : Nat → SqlOutcome) (mr : Nat)
    (code : Nat → Nat) :
    ∀ remaining sleeps0, 1 ≤ remaining → remaining ≤ mr →
      (∀ i, mr - remaining ≤ i → i < mr → outcome i = .errLocked (code i)) →
      retryGo outcome mr remaining sleeps0
        = .raised true (code (mr - 1)) mr
            (sleeps0 ++ (List.range' (mr - remaining + 1) (remaining - 1)).map
              backoffAt) := by
  intro remaining
  induction remaining with
  | zero => intro _ h1 _ _; omega
  | succ rem ih =>
    intro sleeps0 _ hle hlocked
    have hout0 : outcome (mr - (rem + 1)) = .errLocked (code (mr - (rem + 1))) :=
      hlocked _ (le_refl _) (by omega)
    cases hrem : rem with
    | zero =>
      unfold retryGo
      have hlast : mr - (rem + 1) = mr - 1 := by omega
      subst hrem
      simp only [hout0, if_pos rfl]
      rw [hlast]
      have hm : mr - 1 + 1 = mr := by omega
      simp [hm]
    | succ rem' =>
      subst hrem
      have ha : mr - (rem' + 1) = mr - (rem' + 1 + 1) + 1 := by omega
      have hrec := ih (sleeps0 ++ [backoffAt (mr - (rem' + 1 + 1) + 1)])
        (by omega) (by omega)
        (fun i hi1 hi2 => hlocked i (by omega) hi2)
      unfold retryGo
      simp only [hout0, Nat.succ_ne_zero, if_false]
      rw [show (sleeps0 ++ [mkRat 1 10 * 2 ^ (mr - (rem' + 1 + 1) + 1)])
            = sleeps0 ++ [backoffAt (mr - (rem' + 1 + 1) + 1)] from rfl]
      rw [hrec]
      simp only [Nat.add_sub_cancel]
      rw [show mr - (rem' + 1) + 1 = mr - (rem' + 1 + 1) + 1 + 1 by omega]
      rw [List.range'_succ, List.map_cons, List.append_assoc,
        List.singleton_append]

/-- C2: for every statement behaviour and every max_retries (default 3), the
retry executor executes the statement at most max_retries times; when the
first failures are all of the transient "database is locked" class it
sleeps with exponential backoff, 0.1 * 2 ^ attempt seconds before retry
number attempt; an error of any other class propagates immediately on its
first occurrence, after exactly the executions preceding it plus one; and
when all max_retries attempts fail with the transient error, the ceiling is
exhausted and the last transient error is re-raised. -/
theorem claim_C2 (outcome : Nat → SqlOutcome) (mr : Nat) :
    (execute_with_retry outcome mr).execs ≤ mr
    ∧ (∀ k c, k < mr →
        (∀ i, i < k → ∃ code, outcome i = .errLocked code) →
        outcome k = .errOther c →
        execute_with_retry outcome mr
          = .raised false c (k + 1) (backoffSleeps k))
    ∧ (∀ code : Nat → Nat, 1 ≤ mr →
        (∀ i, i < mr → outcome i = .errLocked (code i)) →
        execute_with_retry outcome mr
          = .raised true (code (mr - 1)) mr (backoffSleeps (mr - 1))) := by
  have hbridge : ∀ n, (List.range' 1 n).map backoffAt = backoffSleeps n := by
    intro n
    rw [List.range'_eq_map_range, List.map_map]
    unfold backoffSleeps
    apply List.map_congr_left
    intro i _
    simp [Function.comp, backoffAt, Nat.add_comm]
  refine ⟨retryGo_execs_le outcome mr mr [] (le_refl mr), ?_, ?_⟩
  · intro k c hk hlocked herr
    have h := retryGo_errOther outcome mr k mr [] c (le_refl mr)
      (by simpa using hlocked) (by simpa using herr) (by omega)
    rw [execute_with_retry, h]
    simp [hbridge]
  · intro code hmr hlocked
    have h := retryGo_allLocked outcome mr code mr [] hmr (le_refl mr)
      (fun i _ hi => hlocked i hi)
    rw [execute_with_retry, h]
    simp [hbridge]

/-- Witness for C2 at max_retries = 3: a statement that is locked on its
first attempt and hits a non-transient error on its second propagates that
error after exactly two executions and one backoff sleep; a statement locked
on all three attempts re-raises the last lock error after three executions
and two sleeps. -/
theorem claim_C2_witness :
    execute_with_retry (fun i => if i = 0 then .errLocked 5 else .errOther 9) 3
      = .raised false 9 2 (backoffSleeps 1)
    ∧ execute_with_retry (fun _ => .errLocked 7) 3
      = .raised true 7 3 (backoffSleeps 2) := by
  constructor
  · exact (claim_C2 (fun i => if i = 0 then .errLocked 5 else .errOther 9) 3).2.1
      1 9 (by omega)
      (fun i hi => ⟨5, by interval_cases i
                          rfl⟩)
      (by rfl)
  · exact (claim_C2 (fun _ => .errLocked 7) 3).2.2
      (fun _ => 7) (by omega) (fun i _ => rfl)

/-! ## Claim about behaviour on non-existent ids -/

/-- C4 counterexample: on the empty graph, get_relations for the
non-existent entity id "x" raises EntityNotFoundError — it does not return
an empty result as the claim states (get_observations behaves the same
way). -/
theorem counterexample_C4 :
    (get_relations (fun h => h) none (fun _ => none) emptyState "x" "both"
        none).result
      = .error (.entityNotFound "Entity with ID 'x' not found")
    ∧ (get_observations (fun h => h) none (fun _ => none) emptyState "x"
        100).result
      = .error (.entityNotFound "Entity with ID 'x' not found") := by
  constructor
  · rfl
  · rfl

/-- C4 amended: for every id that does not identify a stored record, the
update and delete operations (update_entity, delete_entity,
delete_observation, delete_relation) return false rather than raising, and
the entity get operations (get_entity, get_entity_by_name) return None
rather than raising; but get_relations and get_observations on a
non-existent entity id raise EntityNotFoundError rather than returning an
empty list. -/
theorem claim_C4 (hash : String → String)
    (decodeE : String → Option EntityRow)
    (decodeR : String → Option (List RelOut))
    (decodeO : String → Option (List ObservationRow))
    (s : KGState) (entity_id ename oid rid : String)
    (nm tp : Option String) (emb : Option (List ℚ))
    (pr : Option (List (String × PVal))) (now now2 : Nat)
    (direction : String) (rt : Option String) (limit : Nat)
    (hid : entity_id ≠ "") (hename : ename ≠ "") (hoid : oid ≠ "")
    (hrid : rid ≠ "")
    (hdir : direction = "outgoing" ∨ direction = "incoming"
      ∨ direction = "both")
    (hnoent : s.entities.find? (fun r => r.id = entity_id) = none)
    (hnoname : s.entities.find? (fun r => r.name = ename) = none)
    (hnoobs : s.observations.find? (fun o => o.id = oid) = none)
    (hnorel : s.relations.find? (fun r => r.id = rid) = none) :
    update_entity s entity_id nm tp emb pr now = ⟨.ok false, s, 1⟩
    ∧ delete_entity s entity_id = ⟨.ok false, s, 1⟩
    ∧ delete_observation s oid now = ⟨.ok false, s, 1⟩
    ∧ delete_relation s rid now = ⟨.ok false, s, 1⟩
    ∧ get_entity hash none decodeE s entity_id now2 = ⟨.ok none, s, 1⟩
    ∧ get_entity_by_name hash none decodeE s ename now2 = ⟨.ok none, s, 1⟩
    ∧ get_relations hash none decodeR s entity_id direction rt
        = ⟨.error (.entityNotFound
            ("Entity with ID '" ++ entity_id ++ "' not found")), s, 1⟩
    ∧ get_observations hash none decodeO s entity_id limit
        = ⟨.error (.entityNotFound
            ("Entity with ID '" ++ entity_id ++ "' not found")), s, 1⟩ := by
  refine ⟨?_, ?_, ?_, ?_, ?_, ?_, ?_, ?_⟩
  · simp [update_entity, hid, hnoent]
  · simp [delete_entity, hid, hnoent]
  · simp [delete_observation, hoid, hnoobs]
  · simp [delete_relation, hrid, hnorel]
  · simp [get_entity, get_entity_db, hid, hnoent]
  · simp [get_entity_by_name, get_entity_by_name_db, hename, hnoname]
  · have hdir' : ¬ ¬ (direction = "outgoing" ∨ direction = "incoming"
        ∨ direction = "both") := not_not_intro hdir
    simp [get_relations, get_relations_db, hid, hdir', hnoent]
  · simp [get_observations, get_observations_db, hid, hnoent]

/-- Witness for C4 on the empty graph: every lookup misses and behaves as
the amended claim states. -/
theorem claim_C4_witness :
    update_entity emptyState "x" none none none none 0 = ⟨.ok false, emptyState, 1⟩
    ∧ delete_entity emptyState "x" = ⟨.ok false, emptyState, 1⟩
    ∧ delete_observation emptyState "o" 0 = ⟨.ok false, emptyState, 1⟩
    ∧ delete_relation emptyState "r" 0 = ⟨.ok false, emptyState, 1⟩
    ∧ get_entity (fun h => h) none (fun _ => none) emptyState "x" 0
        = ⟨.ok none, emptyState, 1⟩
    ∧ get_entity_by_name (fun h => h) none (fun _ => none) emptyState "n" 0
        = ⟨.ok none, emptyState, 1⟩
    ∧ get_relations (fun h => h) none (fun _ => none) emptyState "x" "both" none
        = ⟨.error (.entityNotFound ("Entity with ID '" ++ "x" ++ "' not found")),
           emptyState, 1⟩
    ∧ get_observations (fun h => h) none (fun _ => none) emptyState "x" 100
        = ⟨.error (.entityNotFound ("Entity with ID '" ++ "x" ++ "' not found")),
           emptyState, 1⟩ :=
  claim_C4 (fun h => h) (fun _ => none) (fun _ => none) (fun _ => none)
    emptyState "x" "n" "o" "r" none none none none 0 0 "both" none 100
    (by decide) (by decide) (by decide) (by decide) (Or.inr (Or.inr rfl))
    rfl rfl rfl rfl

/-! ## Claim about the create/get round trip -/

/-- C5 counterexample: create an entity with the empty property bag on the
empty graph, then get it back — the returned properties are not identical
to those supplied, because get folds the entity's (empty) observation list
in as a synthetic "observations" property. -/
theorem counterexample_C5 :
    (get_entity (fun h => h) none (fun _ => none)
        (create_entity emptyState "Foo" "function" none [] "A" 0).state
        "A" 1).result
      = .ok (some ⟨"A", "Foo", "function", none, 0, 1,
          [("observations", .strList [])]⟩)
    ∧ ([("observations", PVal.strList [])] : List (String × PVal)) ≠ [] := by
  constructor
  · rfl
  · decide

/-- C5 amended: for every entity (non-empty name and type, any property
bag) created into a graph where its (name, type) pair and its fresh id are
new, get_entity on the id returned by create_entity returns an entity with
identical name, type and embedding, the freshly assigned id, and the
supplied properties augmented with a synthetic "observations" key holding
the entity's (empty) observation list. -/
theorem claim_C5 (hash : String → String) (decode : String → Option EntityRow)
    (s : KGState) (name ty : String) (emb : Option (List ℚ))
    (props : List (String × PVal)) (fid : String) (now now2 : Nat)
    (hname : stripEmpty name = false) (hty : stripEmpty ty = false)
    (hfid : fid ≠ "")
    (hnodup : s.entities.find? (fun e => e.name = name && e.entity_type = ty)
      = none)
    (hfresh : ∀ e ∈ s.entities, e.id ≠ fid)
    (hobs : ∀ o ∈ s.observations, o.entity_id ≠ fid) :
    (create_entity s name ty emb props fid now).result = .ok fid
    ∧ get_entity hash none decode
        (create_entity s name ty emb props fid now).state fid now2
      = ⟨.ok (some ⟨fid, name, ty, emb, now, now2,
          dictSet props "observations" (.strList [])⟩),
         (create_entity s name ty emb props fid now).state, 2⟩ := by
  have hstate : (create_entity s name ty emb props fid now).state
      = { s with entities :=
            s.entities ++ [⟨fid, name, ty, emb, now, now, props⟩] } := by
    simp [create_entity, hname, hty, hnodup]
  have hres : (create_entity s name ty emb props fid now).result = .ok fid := by
    simp [create_entity, hname, hty, hnodup]
  refine ⟨hres, ?_⟩
  rw [hstate]
  have hmiss : s.entities.find? (fun r => r.id = fid) = none :=
    List.find?_eq_none.mpr (fun e he => by simp [hfresh e he])
  have hfind : (s.entities
        ++ [(⟨fid, name, ty, emb, now, now, props⟩ : EntityRow)]).find?
      (fun r => r.id = fid)
      = some (⟨fid, name, ty, emb, now, now, props⟩ : EntityRow) := by
    rw [List.find?_append, hmiss]
    simp
  have hnoobs : s.observations.filter (fun o => o.entity_id = fid) = [] :=
    List.filter_eq_nil_iff.mpr (fun o ho => by simp [hobs o ho])
  simp only [get_entity, hfid, if_false, get_entity_db, hfind]
  simp [add_observations_to_entity, hnoobs, sortObsNewestFirst]

/-- Witness for C5: the round trip on the empty graph with a non-trivial
property bag. -/
theorem claim_C5_witness :
    (create_entity emptyState "Foo" "function" (some [1]) [("k", .str "v")]
        "A" 3).result = .ok "A"
    ∧ get_entity (fun h => h) none (fun _ => none)
        (create_entity emptyState "Foo" "function" (some [1]) [("k", .str "v")]
          "A" 3).state "A" 7
      = ⟨.ok (some ⟨"A", "Foo", "function", some [1], 3, 7,
          dictSet [("k", .str "v")] "observations" (.strList [])⟩),
         (create_entity emptyState "Foo" "function" (some [1]) [("k", .str "v")]
           "A" 3).state, 2⟩ :=
  claim_C5 (fun h => h) (fun _ => none) emptyState "Foo" "function" (some [1])
    [("k", .str "v")] "A" 3 7 (by decide) (by decide) (by decide) rfl
    (by intro e he
        simp [emptyState] at he)
    (by intro o ho
        simp [emptyState] at ho)

/-! ## Claim about the cache-hit path -/

/-- C7: for every read operation called with a cache configured, when the
cache get for the derived key returns a value that deserializes
successfully, the operation returns that cached value with no storage
access at all — the storage retry executor is invoked zero times and the
state is untouched. -/
theorem claim_C7 (hash : String → String) (c : CacheClient) (s : KGState) :
    (∀ (decode : String → Option EntityRow) (entity_id : String) (now : Nat)
        (d : String) (v : EntityRow),
      entity_id ≠ "" →
      c.get (get_cache_key hash "get_entity" [entity_id] []) = some d →
      decode d = some v →
      get_entity hash (some c) decode s entity_id now = ⟨.ok (some v), s, 0⟩)
    ∧ (∀ (decode : String → Option EntityRow) (name : String) (now : Nat)
        (d : String) (v : EntityRow),
      name ≠ "" →
      c.get (get_cache_key hash "get_entity_by_name" [name] []) = some d →
      decode d = some v →
      get_entity_by_name hash (some c) decode s name now
        = ⟨.ok (some v), s, 0⟩)
    ∧ (∀ (decode : String → Option (List RelOut)) (entity_id direction : String)
        (rt : Option String) (d : String) (v : List RelOut),
      entity_id ≠ "" →
      (direction = "outgoing" ∨ direction = "incoming" ∨ direction = "both") →
      c.get (get_cache_key hash "get_relations"
        [entity_id, direction, strOfOptType rt] []) = some d →
      decode d = some v →
      get_relations hash (some c) decode s entity_id direction rt
        = ⟨.ok v, s, 0⟩)
    ∧ (∀ (decode : String → Option (List ObservationRow)) (entity_id : String)
        (limit : Nat) (d : String) (v : List ObservationRow),
      entity_id ≠ "" →
      c.get (get_cache_key hash "get_observations"
        [entity_id, toString limit] []) = some d →
      decode d = some v →
      get_observations hash (some c) decode s entity_id limit
        = ⟨.ok v, s, 0⟩)
    ∧ (∀ (decode : String → Option (List SearchResult)) (query : String)
        (et : Option String) (limit : Nat) (ms : ℚ) (d : String)
        (v : List SearchResult),
      query ≠ "" →
      c.get (get_cache_key hash "search_entities"
        [query, strOfOptType et, toString limit, toString ms] []) = some d →
      decode d = some v →
      search_entities hash (some c) decode s query et limit ms
        = ⟨.ok v, s, 0⟩) := by
  refine ⟨?_, ?_, ?_, ?_, ?_⟩
  · intro decode entity_id now d v hid hget hdec
    simp [get_entity, hid, hget, hdec]
  · intro decode name now d v hname hget hdec
    simp [get_entity_by_name, hname, hget, hdec]
  · intro decode entity_id direction rt d v hid hdir hget hdec
    have hdir' : ¬ ¬ (direction = "outgoing" ∨ direction = "incoming"
        ∨ direction = "both") := not_not_intro hdir
    simp [get_relations, hid, hdir', hget, hdec]
  · intro decode entity_id limit d v hid hget hdec
    simp [get_observations, hid, hget, hdec]
  · intro decode query et limit ms d v hq hget hdec
    simp [search_entities, hq, hget, hdec]

/-- Witness for C7: a warm one-key cache serving get_entity returns the
decoded cached entity with zero executor invocations, on a state whose
stored row differs from the cached one. -/
theorem claim_C7_witness :
    get_entity (fun h => h)
        (some ⟨fun k => if k = get_cache_key (fun h => h) "get_entity" ["A"] []
                        then some "blob" else none⟩)
        (fun b => if b = "blob"
                  then some ⟨"A", "Cached", "function", none, 0, 0, []⟩
                  else none)
        ⟨[⟨"A", "Stored", "function", none, 0, 0, []⟩], [], []⟩ "A" 5
      = ⟨.ok (some ⟨"A", "Cached", "function", none, 0, 0, []⟩),
         ⟨[⟨"A", "Stored", "function", none, 0, 0, []⟩], [], []⟩, 0⟩ :=
  (claim_C7 (fun h => h)
    ⟨fun k => if k = get_cache_key (fun h => h) "get_entity" ["A"] []
              then some "blob" else none⟩
    ⟨[⟨"A", "Stored", "function", none, 0, 0, []⟩], [], []⟩).1
    (fun b => if b = "blob"
              then some ⟨"A", "Cached", "function", none, 0, 0, []⟩
              else none)
    "A" 5 "blob" ⟨"A", "Cached", "function", none, 0, 0, []⟩
    (by decide) (by simp) (by simp)

/-! ## Claim about cascading entity deletion -/

lemma mem_outgoingRows {s : KGState} {entity_id entity_name : String}
    {rt : Option String} {x : RelOut}
    (hx : x ∈ outgoingRows s entity_id entity_name rt) :
    ∃ rel ∈ s.relations, x.from_entity_id = rel.from_entity_id
      ∧ x.to_entity_id = rel.to_entity_id := by
  unfold outgoingRows at hx
  obtain ⟨rel, hrelmem, hf⟩ := List.mem_filterMap.mp hx
  have hrel : rel ∈ s.relations := (List.mem_filter.mp hrelmem).1
  cases hfind : s.entities.find? (fun e => e.id = rel.to_entity_id) with
  | none => rw [hfind] at hf; simp at hf
  | some t =>
    rw [hfind] at hf
    simp only [Option.some_inj] at hf
    exact ⟨rel, hrel, by rw [← hf], by rw [← hf]⟩

lemma mem_incomingRows {s : KGState} {entity_id entity_name : String}
    {rt : Option String} {x : RelOut}
    (hx : x ∈ incomingRows s entity_id entity_name rt) :
    ∃ rel ∈ s.relations, x.from_entity_id = rel.from_entity_id
      ∧ x.to_entity_id = rel.to_entity_id := by
  unfold incomingRows at hx
  obtain ⟨rel, hrelmem, hf⟩ := List.mem_filterMap.mp hx
  have hrel : rel ∈ s.relations := (List.mem_filter.mp hrelmem).1
  cases hfind : s.entities.find? (fun e => e.id = rel.from_entity_id) with
  | none => rw [hfind] at hf; simp at hf
  | some t =>
    rw [hfind] at hf
    simp only [Option.some_inj] at hf
    exact ⟨rel, hrel, by rw [← hf], by rw [← hf]⟩

lemma mem_searchCandidates {s : KGState} {query : String}
    {et : Option String} {lim : Nat} {e : EntityRow}
    (he : e ∈ searchCandidates s query et lim) : e ∈ s.entities := by
  unfold searchCandidates at he
  have h1 := List.mem_of_mem_take he
  have h2 := (List.mem_insertionSort _).mp h1
  exact (List.mem_filter.mp h2).1

/-- Every entry of a successful search_entities result names a stored
entity's id and carries its stored observation count. -/
lemma search_result_sources {hash : String → String}
    {decode : String → Option (List SearchResult)} {s : KGState}
    {query : String} {et : Option String} {lim : Nat} {ms : ℚ}
    {res : List SearchResult}
    (hres : (search_entities hash none decode s query et lim ms).result
      = .ok res) :
    ∀ x ∈ res, ∃ e ∈ s.entities, x.id = e.id ∧ x.name = e.name
      ∧ x.similarity = textSimilarity e.name query
      ∧ x.observation_count
        = (s.observations.filter (fun o => o.entity_id = e.id)).length := by
  by_cases hq : query = ""
  · rw [search_entities, if_pos hq] at hres
    simp at hres
  · rw [search_entities, if_neg hq] at hres
    simp only [search_entities_db, Except.ok.injEq] at hres
    intro x hx
    rw [← hres] at hx
    obtain ⟨p, hp, hpx⟩ := List.mem_map.mp hx
    have hp1 := List.mem_of_mem_take hp
    have hp2 := (List.mem_insertionSort _).mp hp1
    have hp3 := (List.mem_filter.mp hp2).1
    obtain ⟨e, he, hpe⟩ := List.mem_map.mp hp3
    refine ⟨e, mem_searchCandidates he, ?_, ?_, ?_, ?_⟩
    · rw [← hpx, ← hpe]
    · rw [← hpx, ← hpe]
    · rw [← hpx, ← hpe]
    · rw [← hpx, ← hpe]

/-- C8: deleting a stored entity returns true, removes it, and cascades:
every observation owned by it and every relation having it as either
endpoint is removed, so no subsequent get or list operation can reach any
of them: get_entity returns None, get_observations raises
EntityNotFoundError, no get_relations result row for any entity mentions it
as an endpoint, and no search result carries its id. -/
theorem claim_C8 (hash : String → String)
    (decodeE : String → Option EntityRow)
    (decodeR : String → Option (List RelOut))
    (decodeO : String → Option (List ObservationRow))
    (decodeS : String → Option (List SearchResult))
    (s : KGState) (E : String) (r : EntityRow) (now : Nat) (lim : Nat)
    (hE : E ≠ "") (hfound : s.entities.find? (fun e => e.id = E) = some r) :
    (delete_entity s E).result = .ok true
    ∧ (∀ e ∈ (delete_entity s E).state.entities, e.id ≠ E)
    ∧ (∀ o ∈ (delete_entity s E).state.observations, o.entity_id ≠ E)
    ∧ (∀ rel ∈ (delete_entity s E).state.relations,
        rel.from_entity_id ≠ E ∧ rel.to_entity_id ≠ E)
    ∧ get_entity hash none decodeE (delete_entity s E).state E now
        = ⟨.ok none, (delete_entity s E).state, 1⟩
    ∧ (∀ (F direction : String) (rt : Option String) (res : List RelOut),
        (get_relations hash none decodeR (delete_entity s E).state F direction
          rt).result = .ok res →
        ∀ x ∈ res, x.from_entity_id ≠ E ∧ x.to_entity_id ≠ E)
    ∧ (get_observations hash none decodeO (delete_entity s E).state E
        lim).result
        = .error (.entityNotFound ("Entity with ID '" ++ E ++ "' not found"))
    ∧ (∀ (q : String) (et : Option String) (lim2 : Nat) (ms : ℚ)
        (res2 : List SearchResult),
        (search_entities hash none decodeS (delete_entity s E).state q et lim2
          ms).result = .ok res2 →
        ∀ x ∈ res2, x.id ≠ E) := by
  have hstate : (delete_entity s E).state
      = { entities := s.entities.filter (fun e => e.id ≠ E),
          observations := s.observations.filter (fun o => o.entity_id ≠ E),
          relations := s.relations.filter
            (fun rel => rel.from_entity_id ≠ E && rel.to_entity_id ≠ E) } := by
    simp [delete_entity, hE, hfound]
  have hents : ∀ e ∈ (delete_entity s E).state.entities, e.id ≠ E := by
    rw [hstate]
    intro e he
    simpa using (List.mem_filter.mp he).2
  have hobs : ∀ o ∈ (delete_entity s E).state.observations,
      o.entity_id ≠ E := by
    rw [hstate]
    intro o ho
    simpa using (List.mem_filter.mp ho).2
  have hrels : ∀ rel ∈ (delete_entity s E).state.relations,
      rel.from_entity_id ≠ E ∧ rel.to_entity_id ≠ E := by
    rw [hstate]
    intro rel hrel
    have h := (List.mem_filter.mp hrel).2
    simp only [Bool.and_eq_true, decide_eq_true_eq] at h
    exact h
  have hmiss : (delete_entity s E).state.entities.find?
      (fun e => e.id = E) = none :=
    List.find?_eq_none.mpr (fun e he => by simp [hents e he])
  refine ⟨by simp [delete_entity, hE, hfound], hents, hobs, hrels, ?_, ?_, ?_, ?_⟩
  · simp [get_entity, get_entity_db, hE, hmiss]
  · intro F direction rt res hres x hx
    by_cases hF : F = ""
    · rw [get_relations, if_pos hF] at hres
      simp at hres
    · rw [get_relations, if_neg hF] at hres
      by_cases hdir : direction = "outgoing" ∨ direction = "incoming"
          ∨ direction = "both"
      · rw [if_neg (not_not_intro hdir)] at hres
        unfold get_relations_db at hres
        cases hfind : (delete_entity s E).state.entities.find?
            (fun e => e.id = F) with
        | none => rw [hfind] at hres; simp at hres
        | some f =>
          rw [hfind] at hres
          simp only [Except.ok.injEq] at hres
          rw [← hres] at hx
          rcases List.mem_append.mp hx with hout | hinc
          · by_cases hcase : direction = "outgoing" || direction = "both"
            · rw [if_pos hcase] at hout
              obtain ⟨rel, hrel, hfrom, hto⟩ := mem_outgoingRows hout
              have := hrels rel hrel
              rw [hfrom, hto]
              exact this
            · rw [if_neg hcase] at hout
              simp at hout
          · by_cases hcase : direction = "incoming" || direction = "both"
            · rw [if_pos hcase] at hinc
              obtain ⟨rel, hrel, hfrom, hto⟩ := mem_incomingRows hinc
              have := hrels rel hrel
              rw [hfrom, hto]
              exact this
            · rw [if_neg hcase] at hinc
              simp at hinc
      · rw [if_pos (by simpa using hdir)] at hres
        simp at hres
  · simp [get_observations, get_observations_db, hE, hmiss]
  · intro q et lim2 ms res2 hres2 x hx
    obtain ⟨e, he, hid, _⟩ := search_result_sources hres2 x hx
    rw [hid]
    exact hents e he

/-- Witness for C8: a two-entity graph with an observation on "A" and
relations in both directions between "A" and "B"; deleting "A" removes all
of them from every subsequent view. -/
theorem claim_C8_witness :
    (delete_entity ⟨[⟨"A", "Foo", "t", none, 0, 0, []⟩,
        ⟨"B", "Bar", "t", none, 0, 0, []⟩],
        [⟨"O1", "A", "obs", none, 1, []⟩],
        [⟨"R1", "A", "B", "calls", 1, 2, []⟩,
         ⟨"R2", "B", "A", "uses", 1, 3, []⟩]⟩ "A").result = .ok true
    ∧ (get_entity (fun h => h) none (fun _ => none)
        (delete_entity ⟨[⟨"A", "Foo", "t", none, 0, 0, []⟩,
          ⟨"B", "Bar", "t", none, 0, 0, []⟩],
          [⟨"O1", "A", "obs", none, 1, []⟩],
          [⟨"R1", "A", "B", "calls", 1, 2, []⟩,
           ⟨"R2", "B", "A", "uses", 1, 3, []⟩]⟩ "A").state "A" 9).result
        = .ok none
    ∧ (∀ x ∈ (delete_entity ⟨[⟨"A", "Foo", "t", none, 0, 0, []⟩,
          ⟨"B", "Bar", "t", none, 0, 0, []⟩],
          [⟨"O1", "A", "obs", none, 1, []⟩],
          [⟨"R1", "A", "B", "calls", 1, 2, []⟩,
           ⟨"R2", "B", "A", "uses", 1, 3, []⟩]⟩ "A").state.relations,
        x.from_entity_id ≠ "A" ∧ x.to_entity_id ≠ "A") := by
  have h := claim_C8 (fun h => h) (fun _ => none) (fun _ => none)
    (fun _ => none) (fun _ => none)
    ⟨[⟨"A", "Foo", "t", none, 0, 0, []⟩, ⟨"B", "Bar", "t", none, 0, 0, []⟩],
     [⟨"O1", "A", "obs", none, 1, []⟩],
     [⟨"R1", "A", "B", "calls", 1, 2, []⟩, ⟨"R2", "B", "A", "uses", 1, 3, []⟩]⟩
    "A" ⟨"A", "Foo", "t", none, 0, 0, []⟩ 9 100 (by decide) rfl
  exact ⟨h.1, by rw [h.2.2.2.2.1], h.2.2.2.1⟩

/-! ## Claim about text search ranking -/

/-- C9: with no embedding involved, every search_entities result is scored
by the discrete text tiers (1.0 exact case-insensitive match, 0.8 prefix,
0.6 substring, 0.4 otherwise — the textSimilarity function applied to its
name and the query); results scoring strictly below min_similarity are
dropped; the returned list is sorted by similarity in descending order,
holds at most limit results, and each result carries its stored observation
count. -/
theorem claim_C9 (hash : String → String)
    (decode : String → Option (List SearchResult)) (s : KGState)
    (query : String) (et : Option String) (lim : Nat) (ms : ℚ)
    (res : List SearchResult)
    (hres : (search_entities hash none decode s query et lim ms).result
      = .ok res) :
    res.length ≤ lim
    ∧ List.Pairwise (fun a b : SearchResult => b.similarity ≤ a.similarity) res
    ∧ (∀ x ∈ res, ¬ x.similarity < ms)
    ∧ (∀ x ∈ res, x.similarity = textSimilarity x.name query)
    ∧ (∀ x ∈ res,
        x.observation_count
          = (s.observations.filter (fun o => o.entity_id = x.id)).length) := by
  have hsources := search_result_sources hres
  by_cases hq : query = ""
  · rw [search_entities, if_pos hq] at hres
    simp at hres
  · rw [search_entities, if_neg hq] at hres
    simp only [search_entities_db, Except.ok.injEq] at hres
    refine ⟨?_, ?_, ?_, ?_, ?_⟩
    · rw [← hres]
      rw [List.length_map]
      exact le_trans (List.length_take_le _ _) (le_refl _)
    · rw [← hres]
      haveI : IsTotal (EntityRow × ℚ) (fun a b => b.2 ≤ a.2) :=
        ⟨fun a b => le_total b.2 a.2⟩
      haveI : IsTrans (EntityRow × ℚ) (fun a b => b.2 ≤ a.2) :=
        ⟨fun _ _ _ hab hbc => le_trans hbc hab⟩
      apply List.pairwise_map.mpr
      exact ((List.sorted_insertionSort _ _).sublist
        (List.take_sublist _ _)).imp (fun h => h)
    · intro x hx
      rw [← hres] at hx
      obtain ⟨p, hp, hpx⟩ := List.mem_map.mp hx
      have hp1 := List.mem_of_mem_take hp
      have hp2 := (List.mem_insertionSort _).mp hp1
      have hkept := (List.mem_filter.mp hp2).2
      simp only [decide_eq_true_eq] at hkept
      rw [← hpx]
      exact hkept
    · intro x hx
      obtain ⟨e, _, _, hnm, hsim, _⟩ := hsources x hx
      rw [hsim, hnm]
    · intro x hx
      obtain ⟨e, _, hid, _, _, hcount⟩ := hsources x hx
      rw [hcount, hid]

/-- Witness for C9 on a three-entity graph queried with "foo" (limit 10,
min_similarity one half): "Foo" matches exactly (1.0), "Foobar" by prefix
(0.8), "barfoo" by substring (0.6), "other" would score 0.4 but is excluded
by the candidate LIKE filter; all returned sorted descending with their
observation counts. -/
theorem claim_C9_witness :
    (search_entities (fun h => h) none (fun _ => none)
        ⟨[⟨"E1", "barfoo", "t", none, 0, 0, []⟩,
          ⟨"E2", "Foo", "t", none, 0, 0, []⟩,
          ⟨"E3", "Foobar", "t", none, 0, 0, []⟩,
          ⟨"E4", "other", "t", none, 0, 0, []⟩],
         [⟨"O1", "E2", "obs", none, 1, []⟩], []⟩
        "foo" none 10 (mkRat 1 2)).result
      = .ok [⟨"E2", "Foo", "t", 0, 0, [], 1, 1⟩,
             ⟨"E3", "Foobar", "t", 0, 0, [], mkRat 4 5, 0⟩,
             ⟨"E1", "barfoo", "t", 0, 0, [], mkRat 3 5, 0⟩]
    ∧ ([⟨"E2", "Foo", "t", 0, 0, [], 1, 1⟩,
        ⟨"E3", "Foobar", "t", 0, 0, [], mkRat 4 5, 0⟩,
        ⟨"E1", "barfoo", "t", 0, 0, [], mkRat 3 5, 0⟩]
          : List SearchResult).length ≤ 10
    ∧ List.Pairwise (fun a b : SearchResult => b.similarity ≤ a.similarity)
        [⟨"E2", "Foo", "t", 0, 0, [], 1, 1⟩,
         ⟨"E3", "Foobar", "t", 0, 0, [], mkRat 4 5, 0⟩,
         ⟨"E1", "barfoo", "t", 0, 0, [], mkRat 3 5, 0⟩] := by
  have hres : (search_entities (fun h => h) none (fun _ => none)
      ⟨[⟨"E1", "barfoo", "t", none, 0, 0, []⟩,
        ⟨"E2", "Foo", "t", none, 0, 0, []⟩,
        ⟨"E3", "Foobar", "t", none, 0, 0, []⟩,
        ⟨"E4", "other", "t", none, 0, 0, []⟩],
       [⟨"O1", "E2", "obs", none, 1, []⟩], []⟩
      "foo" none 10 (mkRat 1 2)).result
      = .ok [⟨"E2", "Foo", "t", 0, 0, [], 1, 1⟩,
             ⟨"E3", "Foobar", "t", 0, 0, [], mkRat 4 5, 0⟩,
             ⟨"E1", "barfoo", "t", 0, 0, [], mkRat 3 5, 0⟩] := by rfl
  have h := claim_C9 (fun h => h) (fun _ => none)
    ⟨[⟨"E1", "barfoo", "t", none, 0, 0, []⟩,
      ⟨"E2", "Foo", "t", none, 0, 0, []⟩,
      ⟨"E3", "Foobar", "t", none, 0, 0, []⟩,
      ⟨"E4", "other", "t", none, 0, 0, []⟩],
     [⟨"O1", "E2", "obs", none, 1, []⟩], []⟩
    "foo" none 10 (mkRat 1 2) _ hres
  exact ⟨hres, h.1, h.2.1⟩

end CarKG
